import Mathlib

/-!
Verification of the client-side auth session manager in
`src/context/AuthContext.js`: token validation, the capped security log,
login throttling, the session scheduler, refresh, logout, and the
per-user security-event query.

Modelling conventions:
- Times are milliseconds since the Unix epoch (`Int`), standing for
  `Date.now()` and for parsed ISO timestamp strings.
- The pair `atob` + `JSON.parse` applied to the middle token segment is
  abstracted as a parameter `decode : String -> Option TokenClaims`;
  `none` stands for a thrown decoding error (not base64-encoded JSON).
  A decoded claims object records the numeric `exp` field when present.
- JavaScript truthiness is modelled explicitly where the source relies
  on it: the empty string is falsy, and the number `0` is falsy.
- React state plus `localStorage` is modelled as one explicit record
  `AuthState`, threaded through each operation.
- `setTimeout` is modelled by a list of pending one-shot timers carried
  in the state; the source never stores or clears a timer handle, so
  nothing ever removes a timer from the list.
- Fire-and-forget IP lookup (`getClientIP().then(...)`) is modelled as
  completing with a given `ip` string, its log entry appended at the end
  of the operation.
-/

/-- Decoded JWT payload: the numeric `exp` claim (seconds since epoch)
when the JSON object has one. -/
structure TokenClaims where
  exp : Option Int
deriving DecidableEq

/-- Freeform detail mapping passed to `addSecurityLog`; only the keys the
source actually passes are modelled. -/
structure Details where
  ip : Option String := none
  location : Option String := none
  userId : Option String := none
  email : Option String := none
  reason : Option String := none
  error : Option String := none
deriving DecidableEq

/-- One security-log entry, as built by `addSecurityLog` (lines 29-44). -/
structure LogEntry where
  timestamp : Int
  action : String
  userAgent : String
  ip : String
  location : String
  userId : Option String
  email : Option String
  reason : Option String
  error : Option String
deriving DecidableEq

/-- The log entry object built at the top of `addSecurityLog`:
timestamp, action, user agent, ip/location defaulting to "unknown",
and the spread of the details object. -/
def mkLogEntry (now : Int) (userAgent action : String) (d : Details) : LogEntry :=
  { timestamp := now
    action := action
    userAgent := userAgent
    ip := d.ip.getD "unknown"
    location := d.location.getD "unknown"
    userId := d.userId
    email := d.email
    reason := d.reason
    error := d.error }

/-- `addSecurityLog` (lines 29-44): prepend the new entry and keep the
first 100 entries (`[logEntry, ...prev].slice(0, 100)`). -/
def addSecurityLog (now : Int) (ua action : String) (d : Details)
    (log : List LogEntry) : List LogEntry :=
  (mkLogEntry now ua action d :: log).take 100

/-- Split a character list at every occurrence of a separator character,
keeping empty pieces, as `String.prototype.split` does for a
one-character separator. -/
def splitCharAux (sep : Char) : List Char → List Char → List (List Char)
  | [], acc => [acc.reverse]
  | c :: cs, acc =>
    if c = sep then acc.reverse :: splitCharAux sep cs []
    else splitCharAux sep cs (c :: acc)

/-- `token.split('.')` from the source (lines 51 and 85). -/
def jsSplitDot (s : String) : List String :=
  (splitCharAux '.' s.toList []).map List.asString

/-- `JSON.parse(atob(token.split('.')[1]))`: decode the second
dot-separated segment; `none` when the segment is missing (the split has
fewer than two parts, so `atob(undefined)` throws) or fails to decode. -/
def payloadOfToken (decode : String → Option TokenClaims) (t : String) :
    Option TokenClaims :=
  match (jsSplitDot t)[1]? with
  | none => none
  | some mid => decode mid

/-- `isValidToken` (lines 47-67) on a string input: falsy (empty) strings
are rejected, then the three-segment shape is checked, then the payload
is decoded; a truthy (nonzero) `exp` with `Date.now() >= exp * 1000`
rejects the token, otherwise it is accepted. -/
def isValidTokenStr (decode : String → Option TokenClaims) (now : Int)
    (t : String) : Bool :=
  if t = "" then false
  else if (jsSplitDot t).length ≠ 3 then false
  else
    match payloadOfToken decode t with
    | none => false
    | some payload =>
      match payload.exp with
      | none => true
      | some e => if e ≠ 0 ∧ e * 1000 ≤ now then false else true

/-- `isValidToken` on a possibly-absent input (`!token` also rejects
`null`/`undefined`). -/
def isValidToken (decode : String → Option TokenClaims) (now : Int) :
    Option String → Bool
  | none => false
  | some t => isValidTokenStr decode now t

/-- Identity returned by the API (`userData.id`). -/
structure UserData where
  id : String
deriving DecidableEq

/-- A pending `setTimeout` auto-logout callback, recorded by the delay in
milliseconds it was armed with. -/
structure PendingTimeout where
  delay : Int
deriving DecidableEq

/-- The session manager's state: React state (`user`, `sessionExpiry`,
`securityLog`) plus the `localStorage` keys and the pending timers. -/
structure AuthState where
  securityLog : List LogEntry
  token : Option String
  refreshToken : Option String
  oauthState : Option String
  user : Option UserData
  sessionExpiry : Option Int
  timers : List PendingTimeout
deriving DecidableEq

/-- `logout` (lines 423-434): log `user_logout` with the outgoing user's
id, clear the three storage keys, reset `user` and `sessionExpiry`.
Timers are untouched (the source keeps no handle to clear). -/
def logout (now : Int) (ua : String) (s : AuthState) : AuthState :=
  { s with
    securityLog :=
      addSecurityLog now ua "user_logout"
        { userId := s.user.map (fun u => u.id) } s.securityLog
    token := none
    refreshToken := none
    oauthState := none
    user := none
    sessionExpiry := none }

/-- `setSession` (lines 81-102): on a truthy token whose payload decodes
and has a truthy `exp`, record `expiryTime = exp * 1000`; when
`expiryTime - now - 60000 > 0`, arm a one-shot timer with that delay.
Decoding errors are caught and leave the state unchanged. -/
def setSession (decode : String → Option TokenClaims) (now : Int)
    (t : String) (s : AuthState) : AuthState :=
  if t = "" then s
  else
    match payloadOfToken decode t with
    | none => s
    | some payload =>
      match payload.exp with
      | none => s
      | some e =>
        if e = 0 then s
        else
          let expiryTime := e * 1000
          let timeout := expiryTime - now - 60000
          let s1 := { s with sessionExpiry := some expiryTime }
          if 0 < timeout then { s1 with timers := s1.timers ++ [⟨timeout⟩] }
          else s1

/-- The body of the scheduled callback (lines 93-96): log
`session_auto_logout` with reason `token_expiry`, then `logout()`. -/
def fireAutoLogout (now : Int) (ua : String) (s : AuthState) : AuthState :=
  logout now ua
    { s with
      securityLog :=
        addSecurityLog now ua "session_auto_logout"
          { reason := some "token_expiry" } s.securityLog }

/-- The `{ success, message? }` object every auth operation returns. -/
structure OpResult where
  success : Bool
  message : Option String
deriving DecidableEq

/-- Outcome of an awaited API call: `ok` with the response data, or a
rejection carrying `error.response?.data?.message` (when the server sent
one) and `error.message`. -/
inductive ApiResult (α : Type) where
  | ok (val : α)
  | err (respMsg : Option String) (errMsg : String)
deriving DecidableEq

/-- `response.data` of the login endpoint: `{ token, refreshToken, ...userData }`. -/
structure LoginResponse where
  token : Option String
  refreshToken : Option String
  userData : UserData
deriving DecidableEq

/-- Result of `login`: the returned object, the post-call state, and
whether `authAPI.login` was invoked. -/
structure LoginOutput where
  result : OpResult
  state : AuthState
  apiLoginCalled : Bool
deriving DecidableEq

/-- Five minutes in milliseconds, the throttle window (line 174). -/
def fiveMinutesMs : Int := 5 * 60 * 1000

/-- The throttle filter (lines 172-175): `login_attempt` entries with
`Date.now() - timestamp < 5 * 60 * 1000`. -/
def recentLoginAttempts (now : Int) (log : List LogEntry) : List LogEntry :=
  log.filter fun e =>
    e.action == "login_attempt" && decide (now - e.timestamp < fiveMinutesMs)

/-- The message returned on a throttled login (line 181). -/
def rateLimitMessage : String := "Too many login attempts. Please try again later."

/-- `login` (lines 169-231). Throttle check first; if the count of recent
`login_attempt` entries is at least 5, log `rate_limit_exceeded` and
return failure without calling the API. Otherwise log `login_attempt`,
call the API; a rejection logs `login_failed` with the server message
(default "Login failed"). On a response, an invalid token throws
`Invalid token received`, caught as "Login failed" (a local Error has no
`response` field). On a valid token: store it, store a truthy refresh
token, set the user, run `setSession`, log `login_success`. -/
def login (decode : String → Option TokenClaims) (now : Int) (ua ip : String)
    (api : ApiResult LoginResponse) (email : String) (s : AuthState) :
    LoginOutput :=
  if 5 ≤ (recentLoginAttempts now s.securityLog).length then
    { result := ⟨false, some rateLimitMessage⟩
      state :=
        { s with
          securityLog :=
            addSecurityLog now ua "rate_limit_exceeded"
              { email := some email } s.securityLog }
      apiLoginCalled := false }
  else
    let s1 :=
      { s with
        securityLog :=
          addSecurityLog now ua "login_attempt" { email := some email }
            s.securityLog }
    match api with
    | .err respMsg _ =>
      let message := respMsg.getD "Login failed"
      { result := ⟨false, some message⟩
        state :=
          { s1 with
            securityLog :=
              addSecurityLog now ua "login_failed"
                { email := some email, ip := some ip, reason := some message }
                s1.securityLog }
        apiLoginCalled := true }
    | .ok resp =>
      if isValidToken decode now resp.token then
        let t := resp.token.getD ""
        let s2 :=
          { s1 with
            token := some t
            refreshToken :=
              match resp.refreshToken with
              | some rt => if rt = "" then s1.refreshToken else some rt
              | none => s1.refreshToken
            user := some resp.userData }
        let s3 := setSession decode now t s2
        { result := ⟨true, none⟩
          state :=
            { s3 with
              securityLog :=
                addSecurityLog now ua "login_success"
                  { userId := some resp.userData.id, email := some email
                    ip := some ip } s3.securityLog }
          apiLoginCalled := true }
      else
        { result := ⟨false, some "Login failed"⟩
          state :=
            { s1 with
              securityLog :=
                addSecurityLog now ua "login_failed"
                  { email := some email, ip := some ip
                    reason := some "Login failed" } s1.securityLog }
          apiLoginCalled := true }

/-- `response.data` of the refresh endpoint: `{ token, newRefreshToken }`. -/
structure RefreshResponse where
  token : Option String
  newRefreshToken : Option String
deriving DecidableEq

/-- Result of `refreshAuthToken`: the returned object (`{ success, token? }`),
the post-call state, and whether `authAPI.refreshToken` was invoked. -/
structure RefreshOutput where
  success : Bool
  returnedToken : Option String
  state : AuthState
  apiRefreshCalled : Bool
deriving DecidableEq

/-- The catch block of `refreshAuthToken` (lines 365-369): log
`token_refresh_failed` with the error message, `logout()`, return failure. -/
def refreshFailure (now : Int) (ua errMsg : String) (s : AuthState)
    (called : Bool) : RefreshOutput :=
  { success := false
    returnedToken := none
    state :=
      logout now ua
        { s with
          securityLog :=
            addSecurityLog now ua "token_refresh_failed"
              { error := some errMsg } s.securityLog }
    apiRefreshCalled := called }

/-- `refreshAuthToken` (lines 342-370): a missing or invalid stored
refresh token throws `Invalid refresh token` before any API call; the
API is then called, an invalid returned token throws
`Invalid token received`; otherwise the new token (and a truthy rotated
refresh token) is stored, `setSession` runs, and `token_refreshed` is
logged. Every throw lands in the catch block `refreshFailure`. -/
def refreshAuthToken (decode : String → Option TokenClaims) (now : Int)
    (ua : String) (api : ApiResult RefreshResponse) (s : AuthState) :
    RefreshOutput :=
  if isValidToken decode now s.refreshToken then
    match api with
    | .err _ errMsg => refreshFailure now ua errMsg s true
    | .ok resp =>
      if isValidToken decode now resp.token then
        let t := resp.token.getD ""
        let s2 :=
          { s with
            token := some t
            refreshToken :=
              match resp.newRefreshToken with
              | some rt => if rt = "" then s.refreshToken else some rt
              | none => s.refreshToken }
        let s3 := setSession decode now t s2
        { success := true
          returnedToken := some t
          state :=
            { s3 with
              securityLog := addSecurityLog now ua "token_refreshed" {} s3.securityLog }
          apiRefreshCalled := true }
      else refreshFailure now ua "Invalid token received" s true
  else refreshFailure now ua "Invalid refresh token" s false

/-- Substring containment on character lists, modelling
`String.prototype.includes`. -/
def listIncludes (l pat : List Char) : Bool :=
  pat.isPrefixOf l ||
    match l with
    | [] => false
    | _ :: tl => listIncludes tl pat

/-- `action.includes(pat)` for strings. -/
def strIncludes (s pat : String) : Bool :=
  listIncludes s.toList pat.toList

/-- `getSecurityEvents` (lines 437-444): empty when no user is set;
otherwise the entries whose `userId` equals the user's id, or whose
action contains "logout" or "token". -/
def getSecurityEvents (s : AuthState) : List LogEntry :=
  match s.user with
  | none => []
  | some u =>
    s.securityLog.filter fun e =>
      e.userId == some u.id || strIncludes e.action "logout" ||
        strIncludes e.action "token"

/-! Helper lemmas and concrete environments -/

/-- Filtering with a stronger predicate keeps at most as many elements. -/
theorem length_filter_mono_of_imp {α : Type} (p q : α → Bool)
    (h : ∀ a, p a = true → q a = true) (l : List α) :
    (l.filter p).length ≤ (l.filter q).length := by
  induction l with
  | nil => simp
  | cons a l ih =>
    by_cases hp : p a = true
    · have hq := h a hp
      simp only [List.filter_cons, hp, hq, if_true, List.length_cons]
      omega
    · have hp' : p a = false := by simpa using hp
      rw [List.filter_cons, List.filter_cons, hp']
      cases hq : q a <;> simp <;> omega

/-- A `login_attempt` entry whose timestamp lies in the trailing
five-minute window ending at `now`. -/
def withinTrailingWindow (now : Int) (e : LogEntry) : Bool :=
  e.action == "login_attempt" && decide (0 ≤ now - e.timestamp) &&
    decide (now - e.timestamp < fiveMinutesMs)

/-- A decode environment that rejects every segment. -/
def cdecNone : String → Option TokenClaims := fun _ => none

/-- An empty, unauthenticated starting state. -/
def emptyState : AuthState :=
  { securityLog := [], token := none, refreshToken := none
    oauthState := none, user := none, sessionExpiry := none, timers := [] }

/-- C1: with at least five `login_attempt` entries inside the trailing
five-minute window, `login` returns the rate-limit failure, appends a
`rate_limit_exceeded` entry, and never calls the API login endpoint. -/
theorem c1_throttled_login (decode : String → Option TokenClaims) (now : Int)
    (ua ip email : String) (api : ApiResult LoginResponse) (s : AuthState)
    (h : 5 ≤ (s.securityLog.filter (withinTrailingWindow now)).length) :
    (login decode now ua ip api email s).result = ⟨false, some rateLimitMessage⟩ ∧
    (login decode now ua ip api email s).state.securityLog =
      addSecurityLog now ua "rate_limit_exceeded" { email := some email }
        s.securityLog ∧
    (login decode now ua ip api email s).apiLoginCalled = false := by
  have himp : ∀ e : LogEntry, withinTrailingWindow now e = true →
      (e.action == "login_attempt" &&
        decide (now - e.timestamp < fiveMinutesMs)) = true := by
    intro e he
    simp only [withinTrailingWindow, Bool.and_eq_true, decide_eq_true_eq] at he
    simp [he.1.1, he.2]
  have h5 : 5 ≤ (recentLoginAttempts now s.securityLog).length :=
    le_trans h (length_filter_mono_of_imp _ _ himp s.securityLog)
  unfold login
  rw [if_pos h5]
  exact ⟨rfl, rfl, rfl⟩

/-- A concrete recent `login_attempt` entry. -/
def attemptEntry : LogEntry := mkLogEntry 999000 "UA" "login_attempt" {}

/-- A state holding five recent `login_attempt` entries. -/
def throttledState : AuthState :=
  { emptyState with securityLog := List.replicate 5 attemptEntry }

/-- Witness for C1 at a concrete throttled state. -/
theorem c1_throttled_login_witness :
    5 ≤ (throttledState.securityLog.filter (withinTrailingWindow 1000000)).length ∧
    ((login cdecNone 1000000 "UA" "1.2.3.4" (ApiResult.err none "boom") "a@b"
        throttledState).result = ⟨false, some rateLimitMessage⟩ ∧
      (login cdecNone 1000000 "UA" "1.2.3.4" (ApiResult.err none "boom") "a@b"
          throttledState).state.securityLog =
        addSecurityLog 1000000 "UA" "rate_limit_exceeded"
          { email := some "a@b" } throttledState.securityLog ∧
      (login cdecNone 1000000 "UA" "1.2.3.4" (ApiResult.err none "boom") "a@b"
          throttledState).apiLoginCalled = false) :=
  ⟨by decide, c1_throttled_login cdecNone 1000000 "UA" "1.2.3.4" "a@b"
    (ApiResult.err none "boom") throttledState (by decide)⟩

/-- C10: a throttled `login` only prepends one `rate_limit_exceeded`
entry (never a `login_attempt`), so the derived throttle count does not
grow, and tokens, user, oauth state, expiry and timers are untouched. -/
theorem c10_throttled_login_frame (decode : String → Option TokenClaims)
    (now : Int) (ua ip email : String) (api : ApiResult LoginResponse)
    (s : AuthState)
    (h : 5 ≤ (recentLoginAttempts now s.securityLog).length) :
    (login decode now ua ip api email s).state.securityLog =
      (mkLogEntry now ua "rate_limit_exceeded" { email := some email } ::
        s.securityLog).take 100 ∧
    (mkLogEntry now ua "rate_limit_exceeded" { email := some email }).action ≠
      "login_attempt" ∧
    (recentLoginAttempts now
        (login decode now ua ip api email s).state.securityLog).length ≤
      (recentLoginAttempts now s.securityLog).length ∧
    (login decode now ua ip api email s).state.token = s.token ∧
    (login decode now ua ip api email s).state.refreshToken = s.refreshToken ∧
    (login decode now ua ip api email s).state.user = s.user ∧
    (login decode now ua ip api email s).state.oauthState = s.oauthState ∧
    (login decode now ua ip api email s).state.sessionExpiry = s.sessionExpiry ∧
    (login decode now ua ip api email s).state.timers = s.timers := by
  unfold login
  rw [if_pos h]
  refine ⟨rfl, by simp [mkLogEntry], ?_, rfl, rfl, rfl, rfl, rfl, rfl⟩
  show (recentLoginAttempts now
      (addSecurityLog now ua "rate_limit_exceeded" { email := some email }
        s.securityLog)).length ≤ _
  unfold addSecurityLog recentLoginAttempts
  have hsub := (List.take_sublist 100
    (mkLogEntry now ua "rate_limit_exceeded" { email := some email } ::
      s.securityLog)).filter
    (fun e => e.action == "login_attempt" &&
      decide (now - e.timestamp < fiveMinutesMs))
  have hlen := hsub.length_le
  have hcons : ((mkLogEntry now ua "rate_limit_exceeded"
      { email := some email } :: s.securityLog).filter
      (fun e => e.action == "login_attempt" &&
        decide (now - e.timestamp < fiveMinutesMs))) =
      s.securityLog.filter
        (fun e => e.action == "login_attempt" &&
          decide (now - e.timestamp < fiveMinutesMs)) := by
    rw [List.filter_cons]
    simp [mkLogEntry]
  rw [hcons] at hlen
  exact hlen

/-- Witness for C10 at a concrete throttled state. -/
theorem c10_throttled_login_frame_witness :
    5 ≤ (recentLoginAttempts 1000000 throttledState.securityLog).length ∧
    ((login cdecNone 1000000 "UA" "ip" (ApiResult.err none "boom") "a@b"
        throttledState).state.token = throttledState.token) :=
  ⟨by decide,
    (c10_throttled_login_frame cdecNone 1000000 "UA" "ip" "a@b"
      (ApiResult.err none "boom") throttledState (by decide)).2.2.2.1⟩

/-- A decode environment whose only decodable segment is "p", carrying
the claim `exp = 0`. -/
def cdecExp0 : String → Option TokenClaims :=
  fun p => if p = "p" then some ⟨some 0⟩ else none

/-- C2 counterexample: the token "h.p.s" is well formed (three segments,
decodable payload), its claims carry `exp = 0` whose expiry
`exp * 1000 = 0` is at or before the current time, yet `isValidToken`
returns true: the source tests `payload.exp &&` first, and the number 0
is falsy, so a zero expiry is never compared against the clock. -/
theorem c2_expired_token_accepted :
    (jsSplitDot "h.p.s").length = 3 ∧
    payloadOfToken cdecExp0 "h.p.s" = some ⟨some 0⟩ ∧
    ((0 : Int) * 1000 ≤ 1700000000000) ∧
    isValidToken cdecExp0 1700000000000 (some "h.p.s") = true := by
  refine ⟨by decide, by decide, by decide, by decide⟩

/-- C2 amended: `isValidToken` accepts a token exactly when it is
nonempty, splits into three segments, its payload decodes, and any
nonzero `exp` claim has `exp * 1000` strictly after the current time; a
zero `exp` (like a missing one) never causes rejection. -/
theorem c2_isValid_characterization (decode : String → Option TokenClaims)
    (now : Int) (t : String) :
    isValidToken decode now (some t) = true ↔
      (t ≠ "" ∧ (jsSplitDot t).length = 3 ∧
        ∃ c, payloadOfToken decode t = some c ∧
          ∀ e, c.exp = some e → e ≠ 0 → now < e * 1000) := by
  show isValidTokenStr decode now t = true ↔ _
  unfold isValidTokenStr
  split_ifs with h1 h2
  · simp [h1]
  · simp only [Bool.false_eq_true, false_iff]
    intro hc
    exact h2 hc.2.1
  · have h2' : (jsSplitDot t).length = 3 := not_not.mp h2
    cases hd : payloadOfToken decode t with
    | none => simp [h1, h2', hd]
    | some c =>
      cases he : c.exp with
      | none =>
        simp [h1, h2', hd, he]
      | some e =>
        simp only [he, h1, h2', hd, ne_eq, not_false_iff, true_and,
          Option.some.injEq, exists_eq_left', forall_eq']
        split_ifs with h3
        · simp only [Bool.false_eq_true, false_iff]
          push_neg
          exact ⟨h3.1, h3.2⟩
        · simp only [true_iff]
          intro h0
          by_contra hlt
          push_neg at hlt
          exact h3 ⟨h0, hlt⟩

/-- C6: `logout` is idempotent on the session state: one call already
leaves no user, no stored bearer/refresh token, no oauth state and no
expiry, and a second call (at any later time) leaves every one of those
components exactly as the first call left them. The model is a total
function, reflecting that the second call cannot throw (`user?.id` is
optional chaining). -/
theorem c6_logout_idempotent (now now2 : Int) (ua ua2 : String) (s : AuthState) :
    (logout now ua s).user = none ∧
    (logout now ua s).token = none ∧
    (logout now ua s).refreshToken = none ∧
    (logout now ua s).oauthState = none ∧
    (logout now ua s).sessionExpiry = none ∧
    (logout now2 ua2 (logout now ua s)).user = (logout now ua s).user ∧
    (logout now2 ua2 (logout now ua s)).token = (logout now ua s).token ∧
    (logout now2 ua2 (logout now ua s)).refreshToken =
      (logout now ua s).refreshToken ∧
    (logout now2 ua2 (logout now ua s)).oauthState =
      (logout now ua s).oauthState ∧
    (logout now2 ua2 (logout now ua s)).sessionExpiry =
      (logout now ua s).sessionExpiry :=
  ⟨rfl, rfl, rfl, rfl, rfl, rfl, rfl, rfl, rfl, rfl⟩

/-- A concrete `user_logout` entry owned by no user. -/
def strayLogoutEntry : LogEntry := mkLogEntry 500 "UA" "user_logout" {}

/-- A state with no authenticated user but a logout entry in its log. -/
def noUserState : AuthState :=
  { emptyState with securityLog := [strayLogoutEntry] }

/-- C9 counterexample: before a user is known (`user` is null), the
query returns the empty sequence, so the `user_logout` entry in the log
is not included, although its action contains "logout". -/
theorem c9_events_hidden_without_user :
    noUserState.user = none ∧
    strIncludes strayLogoutEntry.action "logout" = true ∧
    strayLogoutEntry ∈ noUserState.securityLog ∧
    getSecurityEvents noUserState = [] := by
  refine ⟨rfl, by decide, by decide, rfl⟩

/-- C9 amended: an entry is returned by `getSecurityEvents` exactly when
a user is currently known and the entry is in the log with a matching
`userId` detail or an action containing "logout" or "token"; when no
user is known the query returns nothing. -/
theorem c9_security_events_characterization (s : AuthState) (e : LogEntry) :
    e ∈ getSecurityEvents s ↔
      ∃ u, s.user = some u ∧ e ∈ s.securityLog ∧
        (e.userId = some u.id ∨ strIncludes e.action "logout" = true ∨
          strIncludes e.action "token" = true) := by
  unfold getSecurityEvents
  cases hu : s.user with
  | none => simp
  | some u =>
    rw [List.mem_filter]
    simp only [Option.some.injEq, exists_eq_left', Bool.or_eq_true, beq_iff_eq,
      or_assoc]

/-- Truncating the second operand before an append does not change the
truncated concatenation. -/
theorem take_append_take {α : Type} (n : Nat) (a b : List α) :
    (a ++ b.take n).take n = (a ++ b).take n := by
  rw [List.take_append_eq_append_take, List.take_append_eq_append_take,
    List.take_take, Nat.min_eq_left (Nat.sub_le n a.length)]

/-- The arguments of one `addSecurityLog` call. -/
structure LogOp where
  now : Int
  ua : String
  action : String
  details : Details
deriving DecidableEq

/-- The entry an `addSecurityLog` call builds. -/
def entryOf (op : LogOp) : LogEntry :=
  mkLogEntry op.now op.ua op.action op.details

/-- One `addSecurityLog` call as a state transformer on the log. -/
def applyLogOp (l : List LogEntry) (op : LogOp) : List LogEntry :=
  addSecurityLog op.now op.ua op.action op.details l

/-- A sequence of `addSecurityLog` calls, oldest first. -/
def appendAll (ops : List LogOp) (l : List LogEntry) : List LogEntry :=
  List.foldl applyLogOp l ops

/-- Closed form of a run of appends: the per-step truncation equals one
final truncation of all built entries (newest first) over the start log. -/
theorem appendAll_eq (ops : List LogOp) (l : List LogEntry)
    (h : l.length ≤ 100) :
    appendAll ops l = ((ops.map entryOf).reverse ++ l).take 100 := by
  induction ops generalizing l with
  | nil =>
    simpa [appendAll] using (List.take_of_length_le h).symm
  | cons op ops ih =>
    show appendAll ops (applyLogOp l op) = _
    have hlen : (applyLogOp l op).length ≤ 100 := by
      simp only [applyLogOp, addSecurityLog, List.length_take]
      exact Nat.min_le_left _ _
    rw [ih _ hlen]
    show ((ops.map entryOf).reverse ++ (entryOf op :: l).take 100).take 100 = _
    rw [take_append_take]
    simp [List.append_assoc]

/-- C3: one append always leaves at most 100 entries with the new entry
at the front, and 101 appends to an empty log evict exactly the first
append, leaving the 100 later entries newest first. -/
theorem c3_security_log_bounded (now : Int) (ua action : String) (d : Details)
    (log : List LogEntry) (op0 : LogOp) (rest : List LogOp)
    (hlen : rest.length = 100) :
    (addSecurityLog now ua action d log).length ≤ 100 ∧
    (addSecurityLog now ua action d log).head? =
      some (mkLogEntry now ua action d) ∧
    appendAll (op0 :: rest) [] = (rest.map entryOf).reverse ∧
    (entryOf op0 ∉ rest.map entryOf →
      entryOf op0 ∉ appendAll (op0 :: rest) []) := by
  have h3 : appendAll (op0 :: rest) [] = (rest.map entryOf).reverse := by
    rw [appendAll_eq (op0 :: rest) [] (by simp)]
    simp only [List.map_cons, List.reverse_cons, List.append_nil]
    rw [List.take_append_eq_append_take]
    have h1 : (rest.map entryOf).reverse.length = 100 := by simp [hlen]
    rw [List.take_of_length_le (le_of_eq h1), h1]
    simp
  refine ⟨?_, rfl, h3, ?_⟩
  · simp only [addSecurityLog, List.length_take]
    exact Nat.min_le_left _ _
  · intro hnot hmem
    rw [h3, List.mem_reverse] at hmem
    exact hnot hmem

/-- A generic append operation for the C3 witness. -/
def wOp : LogOp := ⟨0, "UA", "later", {}⟩

/-- The first append operation for the C3 witness. -/
def wOp0 : LogOp := ⟨1, "UA", "first", {}⟩

/-- Witness for C3: 101 concrete appends to the empty log. -/
theorem c3_security_log_bounded_witness :
    (List.replicate 100 wOp).length = 100 ∧
    ((addSecurityLog 5 "UA" "x" {} []).length ≤ 100 ∧
      (addSecurityLog 5 "UA" "x" {} []).head? =
        some (mkLogEntry 5 "UA" "x" {}) ∧
      appendAll (wOp0 :: List.replicate 100 wOp) [] =
        ((List.replicate 100 wOp).map entryOf).reverse ∧
      (entryOf wOp0 ∉ (List.replicate 100 wOp).map entryOf →
        entryOf wOp0 ∉ appendAll (wOp0 :: List.replicate 100 wOp) [])) :=
  ⟨by simp,
    c3_security_log_bounded 5 "UA" "x" {} [] wOp0 (List.replicate 100 wOp)
      (by simp)⟩

/-- C5: an unthrottled login whose API response carries a token failing
validation returns the "Login failed" failure (the local
`Invalid token received` throw has no server message attached), stores
no bearer or refresh token, and leaves the user unchanged. -/
theorem c5_invalid_token_login (decode : String → Option TokenClaims)
    (now : Int) (ua ip email : String) (resp : LoginResponse) (s : AuthState)
    (hth : (recentLoginAttempts now s.securityLog).length < 5)
    (hbad : isValidToken decode now resp.token = false) :
    (login decode now ua ip (ApiResult.ok resp) email s).result =
      ⟨false, some "Login failed"⟩ ∧
    (login decode now ua ip (ApiResult.ok resp) email s).state.token =
      s.token ∧
    (login decode now ua ip (ApiResult.ok resp) email s).state.refreshToken =
      s.refreshToken ∧
    (login decode now ua ip (ApiResult.ok resp) email s).state.user = s.user ∧
    (login decode now ua ip (ApiResult.ok resp) email s).state.sessionExpiry =
      s.sessionExpiry := by
  unfold login
  rw [if_neg (Nat.not_le.mpr hth)]
  dsimp only
  rw [if_neg (by simp [hbad])]
  exact ⟨rfl, rfl, rfl, rfl, rfl⟩

/-- An API response carrying no token at all. -/
def tokenlessResponse : LoginResponse := ⟨none, none, ⟨"u1"⟩⟩

/-- Witness for C5: a fresh state and a response without a valid token. -/
theorem c5_invalid_token_login_witness :
    (recentLoginAttempts 0 emptyState.securityLog).length < 5 ∧
    isValidToken cdecNone 0 tokenlessResponse.token = false ∧
    ((login cdecNone 0 "UA" "ip" (ApiResult.ok tokenlessResponse) "a@b"
        emptyState).result = ⟨false, some "Login failed"⟩ ∧
      (login cdecNone 0 "UA" "ip" (ApiResult.ok tokenlessResponse) "a@b"
          emptyState).state.token = emptyState.token ∧
      (login cdecNone 0 "UA" "ip" (ApiResult.ok tokenlessResponse) "a@b"
          emptyState).state.refreshToken = emptyState.refreshToken ∧
      (login cdecNone 0 "UA" "ip" (ApiResult.ok tokenlessResponse) "a@b"
          emptyState).state.user = emptyState.user ∧
      (login cdecNone 0 "UA" "ip" (ApiResult.ok tokenlessResponse) "a@b"
          emptyState).state.sessionExpiry = emptyState.sessionExpiry) :=
  ⟨by decide, rfl,
    c5_invalid_token_login cdecNone 0 "UA" "ip" "a@b" tokenlessResponse
      emptyState (by decide) rfl⟩

/-- Two stacked prepends under the 100-cap keep both new heads and 98
old entries. -/
theorem take_cons_cons {α : Type} (a b : α) (l : List α) :
    ((a :: (b :: l).take 100).take 100) = a :: b :: l.take 98 := by
  have h1 : (b :: l).take 100 = b :: l.take 99 := rfl
  have h2 : (a :: b :: l.take 99).take 100 = a :: b :: (l.take 99).take 98 := rfl
  rw [h1, h2, List.take_take]
  norm_num

/-- C7: when the stored refresh token is missing, malformed or expired,
`refreshAuthToken` throws before any API call; the catch block logs
`token_refresh_failed`, forces a logout (which logs `user_logout` and
clears both tokens and the user), and returns failure with no token. -/
theorem c7_refresh_without_valid_token (decode : String → Option TokenClaims)
    (now : Int) (ua : String) (api : ApiResult RefreshResponse) (s : AuthState)
    (h : isValidToken decode now s.refreshToken = false) :
    (refreshAuthToken decode now ua api s).success = false ∧
    (refreshAuthToken decode now ua api s).returnedToken = none ∧
    (refreshAuthToken decode now ua api s).apiRefreshCalled = false ∧
    (refreshAuthToken decode now ua api s).state.user = none ∧
    (refreshAuthToken decode now ua api s).state.token = none ∧
    (refreshAuthToken decode now ua api s).state.refreshToken = none ∧
    (refreshAuthToken decode now ua api s).state.securityLog =
      mkLogEntry now ua "user_logout" { userId := s.user.map (fun u => u.id) } ::
        mkLogEntry now ua "token_refresh_failed"
          { error := some "Invalid refresh token" } ::
          s.securityLog.take 98 := by
  unfold refreshAuthToken
  rw [if_neg (by simp [h])]
  refine ⟨rfl, rfl, rfl, rfl, rfl, rfl, ?_⟩
  show List.take 100
      (mkLogEntry now ua "user_logout" { userId := s.user.map (fun u => u.id) } ::
        List.take 100
          (mkLogEntry now ua "token_refresh_failed"
            { error := some "Invalid refresh token" } :: s.securityLog)) = _
  exact take_cons_cons _ _ _

/-- Witness for C7: a state with no stored refresh token. -/
theorem c7_refresh_without_valid_token_witness :
    isValidToken cdecNone 0 emptyState.refreshToken = false ∧
    ((refreshAuthToken cdecNone 0 "UA" (ApiResult.err none "boom")
        emptyState).success = false ∧
      (refreshAuthToken cdecNone 0 "UA" (ApiResult.err none "boom")
          emptyState).returnedToken = none ∧
      (refreshAuthToken cdecNone 0 "UA" (ApiResult.err none "boom")
          emptyState).apiRefreshCalled = false ∧
      (refreshAuthToken cdecNone 0 "UA" (ApiResult.err none "boom")
          emptyState).state.user = none ∧
      (refreshAuthToken cdecNone 0 "UA" (ApiResult.err none "boom")
          emptyState).state.token = none ∧
      (refreshAuthToken cdecNone 0 "UA" (ApiResult.err none "boom")
          emptyState).state.refreshToken = none ∧
      (refreshAuthToken cdecNone 0 "UA" (ApiResult.err none "boom")
          emptyState).state.securityLog =
        mkLogEntry 0 "UA" "user_logout"
            { userId := emptyState.user.map (fun u => u.id) } ::
          mkLogEntry 0 "UA" "token_refresh_failed"
            { error := some "Invalid refresh token" } ::
            emptyState.securityLog.take 98) :=
  ⟨rfl,
    c7_refresh_without_valid_token cdecNone 0 "UA" (ApiResult.err none "boom")
      emptyState rfl⟩

/-- C8: for a nonempty token whose payload decodes (the scheduler's
notion of usable input) and a nonnegative clock, `setSession` arms
exactly one timer with delay exactly `exp * 1000 - now - 60000` when
that quantity is positive, arms nothing when it is not, and arms
nothing when the claims carry no `exp`. -/
theorem c8_session_scheduling (decode : String → Option TokenClaims)
    (now : Int) (t : String) (s : AuthState) (c : TokenClaims)
    (h0 : 0 ≤ now) (ht : t ≠ "") (hd : payloadOfToken decode t = some c) :
    (∀ e, c.exp = some e →
      (0 < e * 1000 - now - 60000 →
        (setSession decode now t s).timers =
          s.timers ++ [⟨e * 1000 - now - 60000⟩] ∧
        (setSession decode now t s).sessionExpiry = some (e * 1000)) ∧
      (e * 1000 - now - 60000 ≤ 0 →
        (setSession decode now t s).timers = s.timers)) ∧
    (c.exp = none → setSession decode now t s = s) := by
  unfold setSession
  rw [if_neg ht]
  constructor
  · intro e he
    simp only [hd, he]
    constructor
    · intro hpos
      have hne : ¬ e = 0 := by
        intro h
        rw [h] at hpos
        omega
      rw [if_neg hne]
      rw [if_pos hpos]
      exact ⟨rfl, rfl⟩
    · intro hle
      by_cases he0 : e = 0
      · rw [if_pos he0]
      · rw [if_neg he0]
        rw [if_neg (by omega : ¬ 0 < e * 1000 - now - 60000)]
  · intro hnone
    simp only [hd, hnone]

/-- A decode environment for the scheduler examples: segment "p8"
carries `exp = 1000` seconds. -/
def cdecExp1000 : String → Option TokenClaims :=
  fun p => if p = "p8" then some ⟨some 1000⟩ else none

/-- Witness for C8: at time 0, a token expiring at second 1000 arms one
timer with delay 940000 ms. -/
theorem c8_session_scheduling_witness :
    (0 : Int) ≤ 0 ∧ "h.p8.s" ≠ "" ∧
    payloadOfToken cdecExp1000 "h.p8.s" = some ⟨some 1000⟩ ∧
    ((∀ e, (⟨some 1000⟩ : TokenClaims).exp = some e →
      (0 < e * 1000 - 0 - 60000 →
        (setSession cdecExp1000 0 "h.p8.s" emptyState).timers =
          emptyState.timers ++ [⟨e * 1000 - 0 - 60000⟩] ∧
        (setSession cdecExp1000 0 "h.p8.s" emptyState).sessionExpiry =
          some (e * 1000)) ∧
      (e * 1000 - 0 - 60000 ≤ 0 →
        (setSession cdecExp1000 0 "h.p8.s" emptyState).timers =
          emptyState.timers)) ∧
    ((⟨some 1000⟩ : TokenClaims).exp = none →
      setSession cdecExp1000 0 "h.p8.s" emptyState = emptyState)) :=
  ⟨le_refl 0, by decide, by decide,
    c8_session_scheduling cdecExp1000 0 "h.p8.s" emptyState ⟨some 1000⟩
      (le_refl 0) (by decide) (by decide)⟩

/-- A state authenticated as user "u1" with one pending auto-logout
timer armed by an earlier session. -/
def staleTimerState : AuthState :=
  { emptyState with user := some ⟨"u1"⟩, timers := [⟨500000⟩] }

/-- C4 counterexample: a successful login installing a new session for
user "u2" leaves the earlier pending auto-logout callback live (the
source never stores or clears a `setTimeout` handle), and when that
stale callback fires it logs out the new session. -/
theorem c4_stale_timer_fires :
    (login cdecExp1000 0 "UA" "ip"
        (ApiResult.ok ⟨some "h.p8.s", none, ⟨"u2"⟩⟩) "a@b"
        staleTimerState).result.success = true ∧
    (login cdecExp1000 0 "UA" "ip"
        (ApiResult.ok ⟨some "h.p8.s", none, ⟨"u2"⟩⟩) "a@b"
        staleTimerState).state.user = some ⟨"u2"⟩ ∧
    (⟨500000⟩ : PendingTimeout) ∈
      (login cdecExp1000 0 "UA" "ip"
        (ApiResult.ok ⟨some "h.p8.s", none, ⟨"u2"⟩⟩) "a@b"
        staleTimerState).state.timers ∧
    (fireAutoLogout 440000 "UA"
      (login cdecExp1000 0 "UA" "ip"
        (ApiResult.ok ⟨some "h.p8.s", none, ⟨"u2"⟩⟩) "a@b"
        staleTimerState).state).user = none := by
  refine ⟨by decide, by decide, by decide, by decide⟩

/-- `setSession` only ever extends the pending-timer list. -/
theorem setSession_timers_extend (decode : String → Option TokenClaims)
    (now : Int) (t : String) (s : AuthState) :
    ∃ added, (setSession decode now t s).timers = s.timers ++ added := by
  unfold setSession
  split
  · exact ⟨[], by simp⟩
  · split
    · exact ⟨[], by simp⟩
    · split
      · exact ⟨[], by simp⟩
      · split
        · exact ⟨[], by simp⟩
        · dsimp only
          split
          · exact ⟨_, rfl⟩
          · exact ⟨[], by simp⟩

/-- C4 amended: nothing cancels or supersedes a pending auto-logout
callback. Every `login` and every `refreshAuthToken` leaves the timers
armed before it still armed (at most appending a new one), and the
callback body unconditionally logs out whatever session is current when
it fires. -/
theorem c4_timers_never_cancelled (decode : String → Option TokenClaims)
    (now : Int) (ua ip email : String) (api : ApiResult LoginResponse)
    (rapi : ApiResult RefreshResponse) (s sAny : AuthState) :
    (∃ added, (login decode now ua ip api email s).state.timers =
      s.timers ++ added) ∧
    (∃ added, (refreshAuthToken decode now ua rapi s).state.timers =
      s.timers ++ added) ∧
    (fireAutoLogout now ua sAny).user = none := by
  refine ⟨?_, ?_, rfl⟩
  · unfold login
    split
    · exact ⟨[], by simp⟩
    · split
      · exact ⟨[], by simp⟩
      · split
        · exact setSession_timers_extend decode now _ _
        · exact ⟨[], by simp⟩
  · unfold refreshAuthToken
    split
    · split
      · exact ⟨[], by simp [refreshFailure, logout]⟩
      · split
        · exact setSession_timers_extend decode now _ _
        · exact ⟨[], by simp [refreshFailure, logout]⟩
    · exact ⟨[], by simp [refreshFailure, logout]⟩
